import Mathlib

/-!
Shallow embedding of `autobahn/compress_bzip2.py`: the `permessage-bzip2`
WebSocket extension negotiation (Offer / Accept / Response) and the
per-message compression processor (`PerMessageBzip2`).

Conventions of the embedding:
* Python integers are `Int`; the value of an extension parameter as produced
  by the transport header parser is either the boolean-true sentinel (a bare
  `key` token) or a string (a `key=value` token), modelled by `ParamVal`.
* A parameter mapping is an insertion-ordered association list
  `List (String × List ParamVal)` with pairwise distinct keys (a Python dict
  mapping each name to the list of values of its wire occurrences); Python
  dict iteration follows insertion order.
* Every `raise` site of the source becomes a distinct constructor of `Err`,
  following the error taxonomy the design attaches to the raise sites:
  duplicate parameter, invalid parameter value, unknown parameter,
  construction error (the constructor-level type/range checks),
  unsupported feature, plus the two runtime errors Python itself raises
  (`IndexError` on `params[p][0]` of an empty list, `AttributeError` on
  using a `None` codec).
* The bz2 codec primitive is external to this repository and treated as a
  black box; it is modelled as a state recording its construction level and
  the chunks fed so far, with `flush` a deterministic function of the state.
-/

deriving instance DecidableEq for Except

namespace CompressBzip2

/-- A single raw extension-parameter value as delivered by the transport
header parser: the boolean-true sentinel for a bare `key` token, or the
value string of a `key=value` token. -/
inductive ParamVal where
  | flagTrue : ParamVal
  | str : String → ParamVal
deriving DecidableEq

/-- A parameter mapping: insertion-ordered association list from parameter
name to the non-collapsed list of values of its occurrences on the wire. -/
abbrev Params := List (String × List ParamVal)

/-- Error kinds, one per distinct raise site of the source. -/
inductive Err where
  | duplicateParameter : String → Err
  | invalidParameterValue : String → Err
  | unknownParameter : String → Err
  | constructionError : Err
  | unsupportedFeature : Err
  | indexError : Err
deriving DecidableEq

/-- `PerMessageBzip2Mixin.EXTENSION_NAME`. -/
def EXTENSION_NAME : String := "permessage-bzip2"

/-- `PerMessageBzip2Mixin.COMPRESS_LEVEL_PERMISSIBLE_VALUES`. -/
def COMPRESS_LEVEL_PERMISSIBLE_VALUES : List Int := [1, 2, 3, 4, 5, 6, 7, 8, 9]

/-- The literal list `['1', '2', '3', '4', '5', '6', '7', '8', '9']` that the
parse methods test membership in. -/
def levelStrings : List String := ["1", "2", "3", "4", "5", "6", "7", "8", "9"]

/-- Python `int(val)` as applied in the parse methods; it is only reached on
members of `levelStrings`, so tabulating the nine digit strings suffices. -/
def strToLevel (s : String) : Int :=
  if s = "1" then 1 else if s = "2" then 2 else if s = "3" then 3
  else if s = "4" then 4 else if s = "5" then 5 else if s = "6" then 6
  else if s = "7" then 7 else if s = "8" then 8 else if s = "9" then 9
  else 0

/-- The parameter name `c2s_max_compress_level`. -/
def keyC2S : String := "c2s_max_compress_level"

/-- The parameter name `s2c_max_compress_level`. -/
def keyS2C : String := "s2c_max_compress_level"

/-- `PerMessageBzip2Offer`: extension parameters offered by a client. -/
structure PerMessageBzip2Offer where
  acceptMaxCompressLevel : Bool
  requestMaxCompressLevel : Int
deriving DecidableEq

namespace PerMessageBzip2Offer

/-- `PerMessageBzip2Offer.__init__`: the boolean type check on
`acceptMaxCompressLevel` is enforced by typing; the range check on
`requestMaxCompressLevel` raises (construction error) exactly as in the
source. -/
def init (acceptMaxCompressLevel : Bool) (requestMaxCompressLevel : Int) :
    Except Err PerMessageBzip2Offer :=
  if requestMaxCompressLevel ≠ 0 ∧
      requestMaxCompressLevel ∉ COMPRESS_LEVEL_PERMISSIBLE_VALUES then
    .error .constructionError
  else
    .ok ⟨acceptMaxCompressLevel, requestMaxCompressLevel⟩

/-- The parameter loop of `PerMessageBzip2Offer.parse`, with the two local
accumulators `acceptMaxCompressLevel` (initially `False`) and
`requestMaxCompressLevel` (initially `0`). -/
def parseLoop : Params → Bool → Int → Except Err (Bool × Int)
  | [], a, r => .ok (a, r)
  | (p, vs) :: rest, a, r =>
    if vs.length > 1 then
      .error (.duplicateParameter p)
    else
      match vs with
      | [] => .error .indexError
      | val :: _ =>
        if p = keyC2S then
          match val with
          | .flagTrue => parseLoop rest true r
          | .str _ => .error (.invalidParameterValue p)
        else if p = keyS2C then
          match val with
          | .flagTrue => .error (.invalidParameterValue p)
          | .str s =>
            if s ∈ levelStrings then
              parseLoop rest a (strToLevel s)
            else
              .error (.invalidParameterValue p)
        else
          .error (.unknownParameter p)

/-- `PerMessageBzip2Offer.parse`: run the parameter loop, then the
constructor. -/
def parse (params : Params) : Except Err PerMessageBzip2Offer := do
  let (a, r) ← parseLoop params false 0
  init a r

/-- `PerMessageBzip2Offer.getExtensionString`. -/
def getExtensionString (o : PerMessageBzip2Offer) : String :=
  let s0 := EXTENSION_NAME
  let s1 := if o.acceptMaxCompressLevel then s0 ++ "; c2s_max_compress_level" else s0
  if o.requestMaxCompressLevel ≠ 0 then
    s1 ++ "; s2c_max_compress_level=" ++ toString o.requestMaxCompressLevel
  else
    s1

/-- Modelled from the spec: the transport layer component
`WebSocketProtocol._parseExtensionsHeader` (outside this repository core,
spec section 1 and section 6) maps the serialized extension string back to a
parameter mapping: each bare `; key` token yields the boolean-true sentinel,
each `; key=value` token yields the value string, in the order the tokens
appear in the string produced by `getExtensionString`. -/
def wireParams (o : PerMessageBzip2Offer) : Params :=
  (if o.acceptMaxCompressLevel then [(keyC2S, [ParamVal.flagTrue])] else [])
    ++ (if o.requestMaxCompressLevel ≠ 0 then
          [(keyS2C, [ParamVal.str (toString o.requestMaxCompressLevel)])]
        else [])

end PerMessageBzip2Offer

/-- `PerMessageBzip2Accept`: parameters with which a server accepts an offer. -/
structure PerMessageBzip2Accept where
  offer : PerMessageBzip2Offer
  requestMaxCompressLevel : Int
deriving DecidableEq

namespace PerMessageBzip2Accept

/-- `PerMessageBzip2Accept.__init__`: the `isinstance` check on `offer` is
enforced by typing; then the range check on `requestMaxCompressLevel`
(construction error), then the feature check against
`offer.acceptMaxCompressLevel` (unsupported feature), in source order. -/
def init (offer : PerMessageBzip2Offer) (requestMaxCompressLevel : Int) :
    Except Err PerMessageBzip2Accept :=
  if requestMaxCompressLevel ≠ 0 ∧
      requestMaxCompressLevel ∉ COMPRESS_LEVEL_PERMISSIBLE_VALUES then
    .error .constructionError
  else if requestMaxCompressLevel ≠ 0 ∧ ¬ offer.acceptMaxCompressLevel then
    .error .unsupportedFeature
  else
    .ok ⟨offer, requestMaxCompressLevel⟩

/-- `PerMessageBzip2Accept.getExtensionString`. -/
def getExtensionString (a : PerMessageBzip2Accept) : String :=
  let s0 := EXTENSION_NAME
  let s1 :=
    if a.offer.requestMaxCompressLevel ≠ 0 then
      s0 ++ "; s2c_max_compress_level=" ++ toString a.offer.requestMaxCompressLevel
    else s0
  if a.requestMaxCompressLevel ≠ 0 then
    s1 ++ "; c2s_max_compress_level=" ++ toString a.requestMaxCompressLevel
  else s1

end PerMessageBzip2Accept

/-- `PerMessageBzip2Response`: parameters responded by a server, as parsed
by the client. -/
structure PerMessageBzip2Response where
  c2s_max_compress_level : Int
  s2c_max_compress_level : Int
deriving DecidableEq

namespace PerMessageBzip2Response

/-- `PerMessageBzip2Response.__init__`: the source constructor performs no
validation at all, it only assigns the two fields. -/
def init (c2s_max_compress_level : Int) (s2c_max_compress_level : Int) :
    Except Err PerMessageBzip2Response :=
  .ok ⟨c2s_max_compress_level, s2c_max_compress_level⟩

/-- The parameter loop of `PerMessageBzip2Response.parse`, with the two
local accumulators `c2s_max_compress_level` and `s2c_max_compress_level`,
both initially `0`. -/
def parseLoop : Params → Int → Int → Except Err (Int × Int)
  | [], c, s => .ok (c, s)
  | (p, vs) :: rest, c, s =>
    if vs.length > 1 then
      .error (.duplicateParameter p)
    else
      match vs with
      | [] => .error .indexError
      | val :: _ =>
        if p = keyC2S then
          match val with
          | .flagTrue => .error (.invalidParameterValue p)
          | .str v =>
            if v ∈ levelStrings then
              parseLoop rest (strToLevel v) s
            else
              .error (.invalidParameterValue p)
        else if p = keyS2C then
          match val with
          | .flagTrue => .error (.invalidParameterValue p)
          | .str v =>
            if v ∈ levelStrings then
              parseLoop rest c (strToLevel v)
            else
              .error (.invalidParameterValue p)
        else
          .error (.unknownParameter p)

/-- `PerMessageBzip2Response.parse`. -/
def parse (params : Params) : Except Err PerMessageBzip2Response := do
  let (c, s) ← parseLoop params 0 0
  init c s

end PerMessageBzip2Response

/-- State of a `bz2.BZ2Compressor`: external black-box primitive, modelled
as the construction level plus the chunks fed so far (in reverse order of
feeding). -/
structure BZ2Compressor where
  level : Int
  fed : List (List Nat)
deriving DecidableEq

/-- Black-box model of `bz2.BZ2Compressor.compress`: buffer the chunk, emit
nothing yet (codecs may buffer internally; the exact byte output of the
primitive is outside this repository). -/
def BZ2Compressor.compress (c : BZ2Compressor) (data : List Nat) :
    BZ2Compressor × List Nat :=
  (⟨c.level, data :: c.fed⟩, [])

/-- Black-box model of `bz2.BZ2Compressor.flush`: the terminal flush output,
a deterministic function of the codec state; modelled as the buffered
chunks in feeding order. -/
def BZ2Compressor.flush (c : BZ2Compressor) : List Nat :=
  c.fed.reverse.flatten

/-- State of a `bz2.BZ2Decompressor`: external black-box primitive, modelled
as the chunks fed so far. -/
structure BZ2Decompressor where
  fed : List (List Nat)
deriving DecidableEq

/-- `PerMessageBzip2`: the extension processor bound to a live connection. -/
structure PerMessageBzip2 where
  _isServer : Bool
  s2c_max_compress_level : Int
  c2s_max_compress_level : Int
  _compressor : Option BZ2Compressor
  _decompressor : Option BZ2Decompressor
deriving DecidableEq

namespace PerMessageBzip2

/-- `PerMessageBzip2.DEFAULT_COMPRESS_LEVEL`. -/
def DEFAULT_COMPRESS_LEVEL : Int := 9

/-- `PerMessageBzip2.__init__`: codecs start as `None`; a zero level is
replaced by `DEFAULT_COMPRESS_LEVEL`. -/
def init (isServer : Bool) (s2c_max_compress_level : Int)
    (c2s_max_compress_level : Int) : PerMessageBzip2 :=
  ⟨isServer,
   if s2c_max_compress_level ≠ 0 then s2c_max_compress_level
   else DEFAULT_COMPRESS_LEVEL,
   if c2s_max_compress_level ≠ 0 then c2s_max_compress_level
   else DEFAULT_COMPRESS_LEVEL,
   none,
   none⟩

/-- `PerMessageBzip2.createFromResponse`. -/
def createFromResponse (isServer : Bool) (response : PerMessageBzip2Response) :
    PerMessageBzip2 :=
  init isServer response.s2c_max_compress_level response.c2s_max_compress_level

/-- `PerMessageBzip2.createFromAccept`. -/
def createFromAccept (isServer : Bool) (accept : PerMessageBzip2Accept) :
    PerMessageBzip2 :=
  init isServer accept.offer.requestMaxCompressLevel accept.requestMaxCompressLevel

/-- `PerMessageBzip2.startCompressMessage`: lazily create the compressor at
the role-appropriate level; a present compressor is left unchanged. -/
def startCompressMessage (pmce : PerMessageBzip2) : PerMessageBzip2 :=
  if pmce._isServer then
    match pmce._compressor with
    | none =>
      { pmce with _compressor := some ⟨pmce.s2c_max_compress_level, []⟩ }
    | some _ => pmce
  else
    match pmce._compressor with
    | none =>
      { pmce with _compressor := some ⟨pmce.c2s_max_compress_level, []⟩ }
    | some _ => pmce

/-- `PerMessageBzip2.compressMessageData`: `none` models the
`AttributeError` Python raises when `_compressor` is `None`. -/
def compressMessageData (pmce : PerMessageBzip2) (data : List Nat) :
    Option (List Nat × PerMessageBzip2) :=
  match pmce._compressor with
  | none => none
  | some c =>
    let (c2, out) := c.compress data
    some (out, { pmce with _compressor := some c2 })

/-- `PerMessageBzip2.endCompressMessage`: flush the compressor and set the
field back to `None`; `none` models the `AttributeError` Python raises when
`_compressor` is already `None`. -/
def endCompressMessage (pmce : PerMessageBzip2) :
    Option (List Nat × PerMessageBzip2) :=
  match pmce._compressor with
  | none => none
  | some c => some (c.flush, { pmce with _compressor := none })

/-- `PerMessageBzip2.startDecompressMessage`. -/
def startDecompressMessage (pmce : PerMessageBzip2) : PerMessageBzip2 :=
  match pmce._decompressor with
  | none => { pmce with _decompressor := some ⟨[]⟩ }
  | some _ => pmce

/-- `PerMessageBzip2.endDecompressMessage`: only discards the decompressor. -/
def endDecompressMessage (pmce : PerMessageBzip2) : PerMessageBzip2 :=
  { pmce with _decompressor := none }

end PerMessageBzip2

/-! ## Helper lemmas -/

lemma mem_permissible_iff (r : Int) :
    r ∈ COMPRESS_LEVEL_PERMISSIBLE_VALUES ↔ 1 ≤ r ∧ r ≤ 9 := by
  simp only [COMPRESS_LEVEL_PERMISSIBLE_VALUES, List.mem_cons, List.not_mem_nil,
    or_false]
  omega

/-! ## C1 -/

/-- C1: Offer serialize/parse round-trip. For every Offer whose
requestMaxCompressLevel lies in the permissible domain, parsing the
parameter mapping corresponding to the string produced by
`getExtensionString` recovers an Offer with identical
`acceptMaxCompressLevel` and `requestMaxCompressLevel` fields; in the
`acceptMaxCompressLevel = false` case no flag token is emitted and the parse
default for the absent token is `false`, so the round-trip holds there too. -/
theorem offer_serialize_parse_roundtrip (a : Bool) (r : Int)
    (h : r = 0 ∨ (1 ≤ r ∧ r ≤ 9)) :
    PerMessageBzip2Offer.parse (PerMessageBzip2Offer.wireParams ⟨a, r⟩) =
      Except.ok ⟨a, r⟩ := by
  rcases h with h | ⟨h1, h2⟩
  · subst h
    cases a <;> decide
  · interval_cases r <;> cases a <;> decide

/-- Witness for C1 at a concrete offer, including the
`acceptMaxCompressLevel = false` case. -/
theorem offer_serialize_parse_roundtrip_witness :
    PerMessageBzip2Offer.parse (PerMessageBzip2Offer.wireParams ⟨false, 7⟩) =
      Except.ok ⟨false, 7⟩ :=
  offer_serialize_parse_roundtrip false 7 (Or.inr (by decide))

/-! ## C2 -/

/-- C2: leveled parameter values. For every leveled parameter of every parse
operation (`s2c_max_compress_level` in `Offer.parse`; both
`c2s_max_compress_level` and `s2c_max_compress_level` in `Response.parse`),
a single value string that is the decimal rendering of an integer in `[1..9]`
parses to that integer, and any other single value string fails the parse
with the invalid-parameter-value error. -/
theorem leveled_param_parse (n : Int) (v : String)
    (hn : 1 ≤ n ∧ n ≤ 9) (hv : v ∉ levelStrings) :
    (PerMessageBzip2Offer.parse [(keyS2C, [ParamVal.str (toString n)])] =
        Except.ok ⟨false, n⟩)
  ∧ (PerMessageBzip2Response.parse [(keyC2S, [ParamVal.str (toString n)])] =
        Except.ok ⟨n, 0⟩)
  ∧ (PerMessageBzip2Response.parse [(keyS2C, [ParamVal.str (toString n)])] =
        Except.ok ⟨0, n⟩)
  ∧ (PerMessageBzip2Offer.parse [(keyS2C, [ParamVal.str v])] =
        Except.error (Err.invalidParameterValue keyS2C))
  ∧ (PerMessageBzip2Response.parse [(keyC2S, [ParamVal.str v])] =
        Except.error (Err.invalidParameterValue keyC2S))
  ∧ (PerMessageBzip2Response.parse [(keyS2C, [ParamVal.str v])] =
        Except.error (Err.invalidParameterValue keyS2C)) := by
  obtain ⟨h1, h2⟩ := hn
  refine ⟨?_, ?_, ?_, ?_, ?_, ?_⟩
  · interval_cases n <;> decide
  · interval_cases n <;> decide
  · interval_cases n <;> decide
  all_goals
    simp [PerMessageBzip2Offer.parse, PerMessageBzip2Offer.parseLoop,
      PerMessageBzip2Response.parse, PerMessageBzip2Response.parseLoop,
      keyC2S, keyS2C, hv, Except.bind]
  all_goals rfl

/-- Witness for C2 at the concrete level 3 and the concrete invalid value
string. -/
theorem leveled_param_parse_witness :
    (PerMessageBzip2Offer.parse [(keyS2C, [ParamVal.str (toString (3 : Int))])] =
        Except.ok ⟨false, 3⟩)
  ∧ (PerMessageBzip2Response.parse [(keyC2S, [ParamVal.str (toString (3 : Int))])] =
        Except.ok ⟨3, 0⟩)
  ∧ (PerMessageBzip2Response.parse [(keyS2C, [ParamVal.str (toString (3 : Int))])] =
        Except.ok ⟨0, 3⟩)
  ∧ (PerMessageBzip2Offer.parse [(keyS2C, [ParamVal.str ("10")])] =
        Except.error (Err.invalidParameterValue keyS2C))
  ∧ (PerMessageBzip2Response.parse [(keyC2S, [ParamVal.str ("10")])] =
        Except.error (Err.invalidParameterValue keyC2S))
  ∧ (PerMessageBzip2Response.parse [(keyS2C, [ParamVal.str ("10")])] =
        Except.error (Err.invalidParameterValue keyS2C)) :=
  leveled_param_parse 3 ("10") (by decide) (by decide)

/-! ## C3 -/

/-- A parameter entry that `PerMessageBzip2Offer.parse` processes without
raising: the flag key with the boolean-true sentinel, or the leveled key
with a valid level string. -/
def offerEntryOK : String × List ParamVal → Bool
  | (q, [ParamVal.flagTrue]) => q == keyC2S
  | (q, [ParamVal.str s]) => q == keyS2C && levelStrings.contains s
  | _ => false

/-- A parameter entry that `PerMessageBzip2Response.parse` processes without
raising: either key with a valid level string. -/
def responseEntryOK : String × List ParamVal → Bool
  | (q, [ParamVal.str s]) => (q == keyC2S || q == keyS2C) && levelStrings.contains s
  | _ => false

lemma offer_parseLoop_dup (p : String) (vs : List ParamVal) (post : Params)
    (hdup : vs.length > 1) :
    ∀ pre : Params, (∀ e ∈ pre, offerEntryOK e = true) → ∀ (a : Bool) (r : Int),
      PerMessageBzip2Offer.parseLoop (pre ++ (p, vs) :: post) a r =
        Except.error (Err.duplicateParameter p) := by
  intro pre
  induction pre with
  | nil =>
    intro _ a r
    simp [PerMessageBzip2Offer.parseLoop, hdup]
  | cons e tl ih =>
    intro hpre a r
    obtain ⟨q, ws⟩ := e
    have hok : offerEntryOK (q, ws) = true := hpre _ (by simp)
    have htl : ∀ e ∈ tl, offerEntryOK e = true := fun e he => hpre e (by simp [he])
    match ws with
    | [] => simp [offerEntryOK] at hok
    | [ParamVal.flagTrue] =>
      simp only [offerEntryOK, beq_iff_eq] at hok
      subst hok
      simpa [PerMessageBzip2Offer.parseLoop] using ih htl true r
    | [ParamVal.str s] =>
      simp only [offerEntryOK, Bool.and_eq_true, beq_iff_eq] at hok
      obtain ⟨hq, hs⟩ := hok
      have hs2 : s ∈ levelStrings := by simpa using hs
      subst hq
      simpa [PerMessageBzip2Offer.parseLoop, keyC2S, keyS2C, hs2]
        using ih htl a (strToLevel s)
    | w1 :: w2 :: ws2 =>
      cases w1 <;> cases w2 <;> simp [offerEntryOK] at hok

lemma response_parseLoop_dup (p : String) (vs : List ParamVal) (post : Params)
    (hdup : vs.length > 1) :
    ∀ pre : Params, (∀ e ∈ pre, responseEntryOK e = true) → ∀ (c s : Int),
      PerMessageBzip2Response.parseLoop (pre ++ (p, vs) :: post) c s =
        Except.error (Err.duplicateParameter p) := by
  intro pre
  induction pre with
  | nil =>
    intro _ c s
    simp [PerMessageBzip2Response.parseLoop, hdup]
  | cons e tl ih =>
    intro hpre c s
    obtain ⟨q, ws⟩ := e
    have hok : responseEntryOK (q, ws) = true := hpre _ (by simp)
    have htl : ∀ e ∈ tl, responseEntryOK e = true := fun e he => hpre e (by simp [he])
    match ws with
    | [] => simp [responseEntryOK] at hok
    | [ParamVal.flagTrue] => simp [responseEntryOK] at hok
    | [ParamVal.str v] =>
      simp only [responseEntryOK, Bool.and_eq_true, Bool.or_eq_true,
        beq_iff_eq] at hok
      obtain ⟨hq | hq, hv⟩ := hok
      all_goals have hv2 : v ∈ levelStrings := by simpa using hv
      all_goals subst hq
      · simpa [PerMessageBzip2Response.parseLoop, keyC2S, keyS2C, hv2]
          using ih htl (strToLevel v) s
      · simpa [PerMessageBzip2Response.parseLoop, keyC2S, keyS2C, hv2]
          using ih htl c (strToLevel v)
    | w1 :: w2 :: ws2 =>
      cases w1 <;> cases w2 <;> simp [responseEntryOK] at hok

/-- Counterexample for C3 as stated: a mapping whose first entry (in
iteration order) is an unknown single-valued parameter and whose second
entry is a duplicated parameter makes both parses fail with the
unknown-parameter error, not the duplicate-parameter error. -/
theorem dup_parameter_claim_counterexample :
    (PerMessageBzip2Offer.parse
        [("foo", [ParamVal.str ("x")]), (keyC2S, [ParamVal.flagTrue, ParamVal.flagTrue])] =
      Except.error (Err.unknownParameter ("foo")))
  ∧ (PerMessageBzip2Response.parse
        [("foo", [ParamVal.str ("x")]), (keyC2S, [ParamVal.flagTrue, ParamVal.flagTrue])] =
      Except.error (Err.unknownParameter ("foo")))
  ∧ Err.unknownParameter ("foo") ≠ Err.duplicateParameter keyC2S := by
  refine ⟨by decide, by decide, by decide⟩

/-- C3 (amended): if a parameter name's value sequence has length greater
than 1 and every parameter preceding it in iteration order is itself
processed without error, then `Offer.parse` and `Response.parse` fail with
the duplicate-parameter error naming that parameter — regardless of which
name is duplicated (unknown names included) and regardless of its values,
i.e. before any value of that parameter is interpreted. -/
theorem dup_parameter_error
    (pre1 pre2 post1 post2 : Params) (p1 p2 : String) (vs1 vs2 : List ParamVal)
    (h1 : ∀ e ∈ pre1, offerEntryOK e = true) (hd1 : vs1.length > 1)
    (h2 : ∀ e ∈ pre2, responseEntryOK e = true) (hd2 : vs2.length > 1) :
    PerMessageBzip2Offer.parse (pre1 ++ (p1, vs1) :: post1) =
      Except.error (Err.duplicateParameter p1)
  ∧ PerMessageBzip2Response.parse (pre2 ++ (p2, vs2) :: post2) =
      Except.error (Err.duplicateParameter p2) := by
  constructor
  · show (PerMessageBzip2Offer.parseLoop (pre1 ++ (p1, vs1) :: post1) false 0).bind _ = _
    rw [offer_parseLoop_dup p1 vs1 post1 hd1 pre1 h1 false 0]
    rfl
  · show (PerMessageBzip2Response.parseLoop (pre2 ++ (p2, vs2) :: post2) 0 0).bind _ = _
    rw [response_parseLoop_dup p2 vs2 post2 hd2 pre2 h2 0 0]
    rfl

/-- Witness for C3 (amended) at concrete mappings: a valid entry followed by
a duplicated entry with an unknown name (Offer), and a valid leveled entry
followed by a duplicated known leveled entry (Response). -/
theorem dup_parameter_error_witness :
    PerMessageBzip2Offer.parse
        [(keyC2S, [ParamVal.flagTrue]), ("foo", [ParamVal.flagTrue, ParamVal.flagTrue])] =
      Except.error (Err.duplicateParameter ("foo"))
  ∧ PerMessageBzip2Response.parse
        [(keyS2C, [ParamVal.str ("3")]),
         (keyC2S, [ParamVal.str ("1"), ParamVal.str ("2")])] =
      Except.error (Err.duplicateParameter keyC2S) :=
  dup_parameter_error
    [(keyC2S, [ParamVal.flagTrue])] [(keyS2C, [ParamVal.str ("3")])]
    [] [] ("foo") keyC2S [ParamVal.flagTrue, ParamVal.flagTrue]
    [ParamVal.str ("1"), ParamVal.str ("2")]
    (by decide) (by decide) (by decide) (by decide)

/-! ## C4 -/

/-- Counterexample for C4 as stated: requesting level 10 (non-zero) against
an offer with `acceptMaxCompressLevel = false` fails with the construction
error raised by the earlier permissible-range check, not with the
unsupported-feature error. -/
theorem accept_unsupported_claim_counterexample :
    PerMessageBzip2Accept.init ⟨false, 0⟩ 10 = Except.error Err.constructionError
  ∧ PerMessageBzip2Accept.init ⟨false, 0⟩ 10 ≠ Except.error Err.unsupportedFeature
  ∧ (10 : Int) ≠ 0 := by
  refine ⟨by decide, by decide, by decide⟩

/-- C4 (amended): constructing an Accept fails with the unsupported-feature
error whenever `requestMaxCompressLevel` is in `[1..9]` (rather than merely
non-zero: a non-zero level outside the permissible range fails earlier with
the construction error) and the offer's `acceptMaxCompressLevel` is false;
it succeeds whenever the level is 0, or is in `[1..9]` with the offer's
`acceptMaxCompressLevel` true. -/
theorem accept_init_validation (o : PerMessageBzip2Offer) (r : Int) :
    (1 ≤ r → r ≤ 9 → o.acceptMaxCompressLevel = false →
      PerMessageBzip2Accept.init o r = Except.error Err.unsupportedFeature)
  ∧ (r = 0 → PerMessageBzip2Accept.init o r = Except.ok ⟨o, r⟩)
  ∧ (1 ≤ r → r ≤ 9 → o.acceptMaxCompressLevel = true →
      PerMessageBzip2Accept.init o r = Except.ok ⟨o, r⟩) := by
  refine ⟨?_, ?_, ?_⟩
  · intro hl hu hno
    have hr : r ≠ 0 := by omega
    have hmem : r ∈ COMPRESS_LEVEL_PERMISSIBLE_VALUES :=
      (mem_permissible_iff r).mpr ⟨hl, hu⟩
    simp [PerMessageBzip2Accept.init, hr, hmem, hno]
  · intro h0
    subst h0
    simp [PerMessageBzip2Accept.init]
  · intro hl hu hyes
    have hmem : r ∈ COMPRESS_LEVEL_PERMISSIBLE_VALUES :=
      (mem_permissible_iff r).mpr ⟨hl, hu⟩
    simp [PerMessageBzip2Accept.init, hmem, hyes]

/-- Witness for C4 (amended) on the unsupported-feature and the two success
cases at concrete inputs. -/
theorem accept_init_validation_witness :
    (PerMessageBzip2Accept.init ⟨false, 0⟩ 5 = Except.error Err.unsupportedFeature)
  ∧ (PerMessageBzip2Accept.init ⟨false, 0⟩ 0 = Except.ok ⟨⟨false, 0⟩, 0⟩)
  ∧ (PerMessageBzip2Accept.init ⟨true, 0⟩ 5 = Except.ok ⟨⟨true, 0⟩, 5⟩) :=
  ⟨(accept_init_validation ⟨false, 0⟩ 5).1 (by decide) (by decide) rfl,
   (accept_init_validation ⟨false, 0⟩ 0).2.1 rfl,
   (accept_init_validation ⟨true, 0⟩ 5).2.2 (by decide) (by decide) rfl⟩

/-! ## C5 -/

/-- C5: Accept serialization. For every validly constructed Accept (from an
offer `o` and requested level `r`) the extension string is exactly the
extension name, then (iff `o.requestMaxCompressLevel` is non-zero) the
`s2c_max_compress_level` token echoing the offer's requested value verbatim,
then (iff `r` is non-zero) the `c2s_max_compress_level` token with the
Accept's own value — in that order. -/
theorem accept_getExtensionString_spec (o : PerMessageBzip2Offer) (r : Int)
    (a : PerMessageBzip2Accept) (h : PerMessageBzip2Accept.init o r = Except.ok a) :
    a.getExtensionString =
      EXTENSION_NAME
        ++ (if o.requestMaxCompressLevel ≠ 0 then
              "; s2c_max_compress_level=" ++ toString o.requestMaxCompressLevel
            else "")
        ++ (if r ≠ 0 then
              "; c2s_max_compress_level=" ++ toString r
            else "") := by
  have ha : a = ⟨o, r⟩ := by
    unfold PerMessageBzip2Accept.init at h
    split_ifs at h
    simp_all
  subst ha
  unfold PerMessageBzip2Accept.getExtensionString
  split_ifs <;>
    simp [String.append_assoc, String.append_empty]

/-- Witness for C5 at a concrete validly constructed Accept with both tokens
present. -/
theorem accept_getExtensionString_spec_witness :
    PerMessageBzip2Accept.getExtensionString ⟨⟨true, 4⟩, 7⟩ =
      EXTENSION_NAME
        ++ (if (4 : Int) ≠ 0 then
              "; s2c_max_compress_level=" ++ toString (4 : Int)
            else "")
        ++ (if (7 : Int) ≠ 0 then
              "; c2s_max_compress_level=" ++ toString (7 : Int)
            else "") :=
  accept_getExtensionString_spec ⟨true, 4⟩ 7 ⟨⟨true, 4⟩, 7⟩ (by decide)

/-! ## C6 -/

lemma init_levels (b : Bool) (s c : Int) :
    (PerMessageBzip2.init b s c).s2c_max_compress_level = (if s ≠ 0 then s else 9)
  ∧ (PerMessageBzip2.init b s c).c2s_max_compress_level = (if c ≠ 0 then c else 9) :=
  ⟨rfl, rfl⟩

/-- C6: Processor construction levels. `createFromAccept` takes its s2c
level from the offer's requested level and its c2s level from the Accept's
own requested level; `createFromResponse` takes them from the Response's
two fields; in both paths a level of 0 becomes 9; in particular a zero
offer-requested level yields s2cLevel 9, and under the data-model invariant
(levels in `{0} ∪ [1..9]`) every constructed Processor has both levels in
`[1..9]`. -/
theorem processor_creation_levels (b : Bool) (acc : PerMessageBzip2Accept)
    (resp : PerMessageBzip2Response)
    (ha1 : acc.offer.requestMaxCompressLevel = 0 ∨
      (1 ≤ acc.offer.requestMaxCompressLevel ∧ acc.offer.requestMaxCompressLevel ≤ 9))
    (ha2 : acc.requestMaxCompressLevel = 0 ∨
      (1 ≤ acc.requestMaxCompressLevel ∧ acc.requestMaxCompressLevel ≤ 9))
    (hr1 : resp.s2c_max_compress_level = 0 ∨
      (1 ≤ resp.s2c_max_compress_level ∧ resp.s2c_max_compress_level ≤ 9))
    (hr2 : resp.c2s_max_compress_level = 0 ∨
      (1 ≤ resp.c2s_max_compress_level ∧ resp.c2s_max_compress_level ≤ 9)) :
    ((PerMessageBzip2.createFromAccept b acc).s2c_max_compress_level =
        if acc.offer.requestMaxCompressLevel ≠ 0 then
          acc.offer.requestMaxCompressLevel else 9)
  ∧ ((PerMessageBzip2.createFromAccept b acc).c2s_max_compress_level =
        if acc.requestMaxCompressLevel ≠ 0 then acc.requestMaxCompressLevel else 9)
  ∧ ((PerMessageBzip2.createFromResponse b resp).s2c_max_compress_level =
        if resp.s2c_max_compress_level ≠ 0 then resp.s2c_max_compress_level else 9)
  ∧ ((PerMessageBzip2.createFromResponse b resp).c2s_max_compress_level =
        if resp.c2s_max_compress_level ≠ 0 then resp.c2s_max_compress_level else 9)
  ∧ (acc.offer.requestMaxCompressLevel = 0 →
      (PerMessageBzip2.createFromAccept b acc).s2c_max_compress_level = 9)
  ∧ (1 ≤ (PerMessageBzip2.createFromAccept b acc).s2c_max_compress_level ∧
      (PerMessageBzip2.createFromAccept b acc).s2c_max_compress_level ≤ 9)
  ∧ (1 ≤ (PerMessageBzip2.createFromAccept b acc).c2s_max_compress_level ∧
      (PerMessageBzip2.createFromAccept b acc).c2s_max_compress_level ≤ 9)
  ∧ (1 ≤ (PerMessageBzip2.createFromResponse b resp).s2c_max_compress_level ∧
      (PerMessageBzip2.createFromResponse b resp).s2c_max_compress_level ≤ 9)
  ∧ (1 ≤ (PerMessageBzip2.createFromResponse b resp).c2s_max_compress_level ∧
      (PerMessageBzip2.createFromResponse b resp).c2s_max_compress_level ≤ 9) := by
  have e1 := init_levels b acc.offer.requestMaxCompressLevel acc.requestMaxCompressLevel
  have e2 := init_levels b resp.s2c_max_compress_level resp.c2s_max_compress_level
  unfold PerMessageBzip2.createFromAccept PerMessageBzip2.createFromResponse
  rw [e1.1, e1.2, e2.1, e2.2]
  refine ⟨rfl, rfl, rfl, rfl, ?_, ?_, ?_, ?_, ?_⟩
  · intro h0
    simp [h0]
  all_goals split_ifs <;> omega

/-- Witness for C6 at a concrete Accept with zero offer-requested level and
a concrete Response. -/
theorem processor_creation_levels_witness :
    ((PerMessageBzip2.createFromAccept true ⟨⟨true, 0⟩, 5⟩).s2c_max_compress_level =
        if (0 : Int) ≠ 0 then 0 else 9)
  ∧ ((PerMessageBzip2.createFromAccept true ⟨⟨true, 0⟩, 5⟩).c2s_max_compress_level =
        if (5 : Int) ≠ 0 then 5 else 9)
  ∧ ((PerMessageBzip2.createFromResponse true ⟨3, 0⟩).s2c_max_compress_level =
        if (0 : Int) ≠ 0 then 0 else 9)
  ∧ ((PerMessageBzip2.createFromResponse true ⟨3, 0⟩).c2s_max_compress_level =
        if (3 : Int) ≠ 0 then 3 else 9)
  ∧ ((0 : Int) = 0 →
      (PerMessageBzip2.createFromAccept true ⟨⟨true, 0⟩, 5⟩).s2c_max_compress_level = 9)
  ∧ (1 ≤ (PerMessageBzip2.createFromAccept true ⟨⟨true, 0⟩, 5⟩).s2c_max_compress_level ∧
      (PerMessageBzip2.createFromAccept true ⟨⟨true, 0⟩, 5⟩).s2c_max_compress_level ≤ 9)
  ∧ (1 ≤ (PerMessageBzip2.createFromAccept true ⟨⟨true, 0⟩, 5⟩).c2s_max_compress_level ∧
      (PerMessageBzip2.createFromAccept true ⟨⟨true, 0⟩, 5⟩).c2s_max_compress_level ≤ 9)
  ∧ (1 ≤ (PerMessageBzip2.createFromResponse true ⟨3, 0⟩).s2c_max_compress_level ∧
      (PerMessageBzip2.createFromResponse true ⟨3, 0⟩).s2c_max_compress_level ≤ 9)
  ∧ (1 ≤ (PerMessageBzip2.createFromResponse true ⟨3, 0⟩).c2s_max_compress_level ∧
      (PerMessageBzip2.createFromResponse true ⟨3, 0⟩).c2s_max_compress_level ≤ 9) :=
  processor_creation_levels true ⟨⟨true, 0⟩, 5⟩ ⟨3, 0⟩
    (by decide) (by decide) (by decide) (by decide)

/-! ## C7 -/

/-- C7: `startCompressMessage` with no active compressor creates one at the
s2c level when the processor is the responder (server) and at the c2s level
when it is the initiator (client), changing nothing else; with an active
compressor it leaves the whole processor unchanged (idempotent within a
message). -/
theorem startCompressMessage_spec (p : PerMessageBzip2) :
    (p._compressor = none →
      p.startCompressMessage =
        { p with _compressor := some ⟨(if p._isServer then p.s2c_max_compress_level
                                       else p.c2s_max_compress_level), []⟩ })
  ∧ (∀ c, p._compressor = some c → p.startCompressMessage = p) := by
  obtain ⟨b, s, c, comp, dec⟩ := p
  constructor
  · intro h
    cases b <;> simp_all [PerMessageBzip2.startCompressMessage]
  · intro c2 h
    cases b <;> simp_all [PerMessageBzip2.startCompressMessage]

/-- Witness for C7: a fresh responder-side processor gets a compressor at
the s2c level, and a second start leaves it unchanged. -/
theorem startCompressMessage_spec_witness :
    ((PerMessageBzip2.init true 3 5).startCompressMessage =
      { PerMessageBzip2.init true 3 5 with
          _compressor := some ⟨(if (PerMessageBzip2.init true 3 5)._isServer then
                                 (PerMessageBzip2.init true 3 5).s2c_max_compress_level
                               else
                                 (PerMessageBzip2.init true 3 5).c2s_max_compress_level),
                               []⟩ })
  ∧ ((PerMessageBzip2.init true 3 5).startCompressMessage.startCompressMessage =
      (PerMessageBzip2.init true 3 5).startCompressMessage) :=
  ⟨(startCompressMessage_spec (PerMessageBzip2.init true 3 5)).1 rfl,
   (startCompressMessage_spec
      (PerMessageBzip2.init true 3 5).startCompressMessage).2 ⟨3, []⟩ rfl⟩

/-! ## C8 -/

/-- C8: with an active compressor, `endCompressMessage` returns the codec's
terminal flush output and resets only the `_compressor` field to `none`,
leaving `_decompressor`, both level fields and the role unchanged;
symmetrically `endDecompressMessage` resets only `_decompressor` and
changes nothing else. -/
theorem end_message_state_reset (p : PerMessageBzip2) (c : BZ2Compressor)
    (h : p._compressor = some c) :
    p.endCompressMessage = some (c.flush, { p with _compressor := none })
  ∧ p.endDecompressMessage = { p with _decompressor := none }
  ∧ ({ p with _compressor := none } : PerMessageBzip2)._decompressor = p._decompressor
  ∧ ({ p with _compressor := none } : PerMessageBzip2)._isServer = p._isServer
  ∧ ({ p with _compressor := none } : PerMessageBzip2).s2c_max_compress_level =
      p.s2c_max_compress_level
  ∧ ({ p with _compressor := none } : PerMessageBzip2).c2s_max_compress_level =
      p.c2s_max_compress_level
  ∧ (p.endDecompressMessage._compressor = p._compressor
      ∧ p.endDecompressMessage._isServer = p._isServer
      ∧ p.endDecompressMessage.s2c_max_compress_level = p.s2c_max_compress_level
      ∧ p.endDecompressMessage.c2s_max_compress_level = p.c2s_max_compress_level) := by
  obtain ⟨b, s, cl, comp, dec⟩ := p
  subst h
  exact ⟨rfl, rfl, rfl, rfl, rfl, rfl, rfl, rfl, rfl, rfl⟩

/-- Witness for C8 at a concrete processor with active codecs in both
directions. -/
theorem end_message_state_reset_witness :
    (⟨true, 3, 5, some ⟨3, [[7, 8]]⟩, some ⟨[[1]]⟩⟩ :
        PerMessageBzip2).endCompressMessage =
      some ((⟨3, [[7, 8]]⟩ : BZ2Compressor).flush,
        { (⟨true, 3, 5, some ⟨3, [[7, 8]]⟩, some ⟨[[1]]⟩⟩ : PerMessageBzip2) with
            _compressor := none }) :=
  (end_message_state_reset
    ⟨true, 3, 5, some ⟨3, [[7, 8]]⟩, some ⟨[[1]]⟩⟩ ⟨3, [[7, 8]]⟩ rfl).1

/-! ## C9 -/

/-- C9: a second `endCompressMessage` without an intervening
`startCompressMessage` never silently succeeds on a stale codec: after a
successful `endCompressMessage` the compressor field is `none`, so the
second call fails cleanly (the `None.flush` attribute error, modelled as
`none`). -/
theorem endCompressMessage_twice_fails (p q : PerMessageBzip2) (out : List Nat)
    (h : p.endCompressMessage = some (out, q)) :
    q.endCompressMessage = none := by
  obtain ⟨b, s, cl, comp, dec⟩ := p
  match comp, h with
  | some c, h =>
    simp only [PerMessageBzip2.endCompressMessage, Option.some.injEq,
      Prod.mk.injEq] at h
    obtain ⟨h1, h2⟩ := h
    subst h2
    rfl

/-- Witness for C9 at a concrete processor. -/
theorem endCompressMessage_twice_fails_witness :
    ((⟨false, 3, 5, none, none⟩ : PerMessageBzip2)).endCompressMessage = none :=
  endCompressMessage_twice_fails
    ⟨false, 3, 5, some ⟨5, []⟩, none⟩ ⟨false, 3, 5, none, none⟩
    ((⟨5, []⟩ : BZ2Compressor).flush) rfl

/-! ## C10 -/

/-- Counterexample for C10 as stated: constructing a Response directly with
the out-of-range levels 10 and -1 succeeds and stores them verbatim; it
does not fail with the construction error. -/
theorem response_init_claim_counterexample :
    PerMessageBzip2Response.init 10 (-1) = Except.ok ⟨10, -1⟩
  ∧ PerMessageBzip2Response.init 10 (-1) ≠ Except.error Err.constructionError
  ∧ ¬ ((10 : Int) = 0 ∨ (1 ≤ (10 : Int) ∧ (10 : Int) ≤ 9)) := by
  refine ⟨by decide, by decide, by decide⟩

/-- C10 (amended): the Response constructor performs no validation — any
integers, including out-of-range ones, are stored verbatim and construction
succeeds, never raising the construction error; the Offer and Accept
constructors, by contrast, do fail with the construction error on an
out-of-range level. The data-model invariant on Response fields is
therefore not enforced by its constructor. -/
theorem response_init_no_validation (cl sl : Int) (b : Bool)
    (o : PerMessageBzip2Offer) (r : Int)
    (hr : ¬ (r = 0 ∨ (1 ≤ r ∧ r ≤ 9))) :
    PerMessageBzip2Response.init cl sl = Except.ok ⟨cl, sl⟩
  ∧ PerMessageBzip2Offer.init b r = Except.error Err.constructionError
  ∧ PerMessageBzip2Accept.init o r = Except.error Err.constructionError := by
  push_neg at hr
  obtain ⟨h0, h19⟩ := hr
  have hmem : r ∉ COMPRESS_LEVEL_PERMISSIBLE_VALUES := by
    rw [mem_permissible_iff]
    omega
  refine ⟨rfl, ?_, ?_⟩
  · simp [PerMessageBzip2Offer.init, h0, hmem]
  · simp [PerMessageBzip2Accept.init, h0, hmem]

/-- Witness for C10 (amended) at the concrete out-of-range level 10. -/
theorem response_init_no_validation_witness :
    PerMessageBzip2Response.init 10 (-1) = Except.ok ⟨10, -1⟩
  ∧ PerMessageBzip2Offer.init true 10 = Except.error Err.constructionError
  ∧ PerMessageBzip2Accept.init ⟨true, 0⟩ 10 = Except.error Err.constructionError :=
  response_init_no_validation 10 (-1) true ⟨true, 0⟩ 10 (by decide)

end CompressBzip2
